import Mathlib

/-!
# aws-psql: statement builders and the sequential executor

A shallow embedding of `main.go`: the two SQL statement builders
(`createUserSQLStatements`, `deleteUserSQLStatements`), the executor
(`executeSQLStatements`) and the command-line entry point (`main`).

Go strings are Lean `String`s.  A process exit (`log.Fatalf`, `os.Exit`) is an
explicit result.  The AWS SDK is an environment (`World`) whose answers may
depend on every call made so far; each call the program makes is appended to a
trace.
-/

namespace AwsPsql

/-! ## `fmt` formatting with string operands -/

/-- Go's rendering of operands left over once the format is used up, without
the leading `%!(EXTRA ` and the closing bracket: `string=a, string=b`. -/
def extraOperands : List String → List Char
  | [] => []
  | [a] => "string=".data ++ a.data
  | a :: b :: rest => "string=".data ++ a.data ++ ", ".data ++ extraOperands (b :: rest)

/-- The formatting loop of `fmt.Sprintf` for operands that are all strings.
Plain characters are copied.  `%%` is a percent sign.  `%s` and `%v` are
replaced by the next operand, unchanged; with `wrapOk` (the `fmt.Errorf`
case) so is `%w`.  A verb with no operand left gives `%!c(MISSING)`, any other
verb `%!c(string=operand)`, a lone `%` at the end `%!(NOVERB)`, and operands
that are left over are listed in `%!(EXTRA ...)`.  Flags and widths are not
part of the model; no format of this program has one. -/
def formatAux (wrapOk : Bool) : List Char → List String → List Char
  | [], [] => []
  | [], a :: rest => "%!(EXTRA ".data ++ extraOperands (a :: rest) ++ [')']
  | [c], args =>
    if c = '%' then "%!(NOVERB)".data ++ formatAux wrapOk [] args
    else c :: formatAux wrapOk [] args
  | c :: v :: fmt, args =>
    if c = '%' then
      if v = '%' then '%' :: formatAux wrapOk fmt args
      else
        match args with
        | [] => '%' :: '!' :: v :: "(MISSING)".data ++ formatAux wrapOk fmt []
        | a :: rest =>
          if v = 's' ∨ v = 'v' ∨ (wrapOk = true ∧ v = 'w') then
            a.data ++ formatAux wrapOk fmt rest
          else
            '%' :: '!' :: v :: "(string=".data ++ a.data ++ [')'] ++ formatAux wrapOk fmt rest
    else c :: formatAux wrapOk (v :: fmt) args

/-- The text `fmt.Sprintf(format, operands...)` returns, for string operands. -/
def Sprintf (format : String) (operands : List String) : String :=
  ⟨formatAux false format.data operands⟩

/-! ## The statement builders -/

/-- Embedding of `createUserSQLStatements`.  The `default` branch of the switch
calls `log.Fatalf`, which logs the message and ends the process: that is
`Except.error` with the logged message, and no statement list is returned. -/
def createUserSQLStatements (newUserName newUserPassword database permissionLevel : String) :
    Except String (List String) :=
  if permissionLevel = "Admin" then
    .ok [
      Sprintf "DO $$ BEGIN IF NOT EXISTS (SELECT 1 FROM pg_roles WHERE rolname = '%s') THEN CREATE USER %s WITH PASSWORD '%s'; END IF; END $$;" [newUserName, newUserName, newUserPassword],
      Sprintf "GRANT ALL PRIVILEGES ON DATABASE %s TO %s;" [database, newUserName]
    ]
  else if permissionLevel = "Read" then
    .ok [
      Sprintf "DO $$ BEGIN IF NOT EXISTS (SELECT 1 FROM pg_roles WHERE rolname = '%s') THEN CREATE USER %s WITH PASSWORD '%s'; END IF; END $$;" [newUserName, newUserName, newUserPassword],
      Sprintf "GRANT CONNECT ON DATABASE %s TO %s;" [database, newUserName],
      Sprintf "GRANT USAGE ON SCHEMA public TO %s;" [newUserName],
      Sprintf "GRANT SELECT ON ALL TABLES IN SCHEMA public TO %s;" [newUserName],
      Sprintf "ALTER DEFAULT PRIVILEGES IN SCHEMA public GRANT SELECT ON TABLES TO %s;" [newUserName]
    ]
  else if permissionLevel = "Write" then
    .ok [
      Sprintf "DO $$ BEGIN IF NOT EXISTS (SELECT 1 FROM pg_roles WHERE rolname = '%s') THEN CREATE USER %s WITH PASSWORD '%s'; END IF; END $$;" [newUserName, newUserName, newUserPassword],
      Sprintf "GRANT CONNECT ON DATABASE %s TO %s;" [database, newUserName],
      Sprintf "GRANT USAGE ON SCHEMA public TO %s;" [newUserName],
      Sprintf "GRANT SELECT, INSERT, UPDATE, DELETE ON ALL TABLES IN SCHEMA public TO %s;" [newUserName],
      Sprintf "ALTER DEFAULT PRIVILEGES IN SCHEMA public GRANT SELECT, INSERT, UPDATE, DELETE ON TABLES TO %s;" [newUserName]
    ]
  else
    .error (Sprintf "invalid permission level: %v" [permissionLevel])

/-- Embedding of `deleteUserSQLStatements`. -/
def deleteUserSQLStatements (userName : String) (database : String) : List String :=
  [
    Sprintf "REVOKE ALL PRIVILEGES ON DATABASE %s FROM %s;" [database, userName],
    Sprintf "REVOKE ALL PRIVILEGES ON SCHEMA public FROM %s;" [userName],
    Sprintf "REVOKE ALL PRIVILEGES ON ALL TABLES IN SCHEMA public FROM %s;" [userName],
    Sprintf "DROP USER IF EXISTS %s;" [userName]
  ]

/-! ## Errors -/

/-- The fault attribution of a structured API error (`smithy.ErrorFault`). -/
inductive ErrorFault
  | FaultUnknown
  | FaultServer
  | FaultClient
deriving DecidableEq, Repr

/-- The text of `ErrorFault.String()`. -/
def faultString : ErrorFault → String
  | .FaultServer => "server"
  | .FaultClient => "client"
  | .FaultUnknown => "unknown"

/-- What the methods of a `smithy.APIError` return. -/
structure APIError where
  ErrorCode : String
  ErrorMessage : String
  ErrorFault : ErrorFault
deriving DecidableEq, Repr

/-- A Go `error` value: a structured API fault, any other error, or an error
made by `fmt.Errorf` with `%w`, which keeps its own text and the wrapped error. -/
inductive GoError
  | api (fault : APIError) (text : String)
  | other (text : String)
  | wrap (text : String) (inner : GoError)
deriving DecidableEq, Repr

namespace GoError

/-- The text of `err.Error()`. -/
def Error : GoError → String
  | api _ text => text
  | other text => text
  | wrap text _ => text

/-- The result of `errors.Unwrap(err)`. -/
def Unwrap : GoError → Option GoError
  | wrap _ inner => some inner
  | _ => none

/-- The search `errors.As(err, &apiErr)` makes for a `smithy.APIError` along
the chain of wrapped errors. -/
def asAPIError : GoError → Option APIError
  | api fault _ => some fault
  | other _ => none
  | wrap _ inner => asAPIError inner

end GoError

/-- The error `fmt.Errorf(format, err)` returns when the format's one error
operand is consumed by `%w`: the formatted text, wrapping `err`. -/
def Errorf (format : String) (err : GoError) : GoError :=
  .wrap ⟨formatAux true format.data [err.Error]⟩ err

/-! ## The environment and the trace of a run -/

/-- The fields of `rdsdata.ExecuteStatementInput` the program sets. -/
structure ExecuteStatementInput where
  SecretArn : String
  ResourceArn : String
  Sql : String
  Database : String
deriving DecidableEq, Repr

/-- One call into the AWS SDK.  `LoadDefaultConfig none` is the plain
`config.LoadDefaultConfig`; `LoadDefaultConfig (some roleArn)` is the one given
the cached assume-role credentials provider for `roleArn`.  The provider only
assumes the role when a request is signed, inside `ExecuteStatement`. -/
inductive Call
  | LoadDefaultConfig (assumeRole : Option String)
  | ExecuteStatement (input : ExecuteStatementInput)
deriving DecidableEq, Repr

/-- The AWS SDK as the program sees it.  Each answer may depend on every call
made before it (the first argument).  A successful `ExecuteStatement` answers
with its records, each one as `fmt.Println` prints it. -/
structure World where
  LoadDefaultConfig : List Call → Option String → Except GoError Unit
  ExecuteStatement : List Call → ExecuteStatementInput → Except GoError (List String)

/-- A line the program writes to standard output. -/
inductive StdoutLine
  | expectedSubcommand
  | executed (sqlStatement : String)
  | responseRecords
  | record (text : String)
  | noResponseRecords
deriving DecidableEq, Repr

/-- The text of a line of standard output. -/
def StdoutLine.text : StdoutLine → String
  | .expectedSubcommand => "expected 'create-user' or 'delete-user' subcommand\n"
  | .executed sqlStatement => Sprintf "Statement executed successfully: %s\n" [sqlStatement]
  | .responseRecords => "Response Records:\n"
  | .record text => text ++ "\n"
  | .noResponseRecords => "No response records.\n"

/-- What a run has done so far: the SDK calls, the lines on standard output and
the messages given to the `log` package, each oldest first. -/
structure Run where
  calls : List Call := []
  stdout : List StdoutLine := []
  log : List String := []
deriving DecidableEq, Repr

namespace Run

/-- Record one SDK call. -/
def call (st : Run) (c : Call) : Run := { st with calls := st.calls ++ [c] }

/-- Write lines to standard output. -/
def print (st : Run) (lines : List StdoutLine) : Run := { st with stdout := st.stdout ++ lines }

/-- The effect of `log.Printf(format, operands...)`. -/
def logPrintf (st : Run) (format : String) (operands : List String) : Run :=
  { st with log := st.log ++ [Sprintf format operands] }

/-- The SQL texts of the success messages printed, oldest first. -/
def executedStatements (st : Run) : List String :=
  st.stdout.filterMap fun
    | .executed sqlStatement => some sqlStatement
    | _ => none

/-- The inputs given to `ExecuteStatement`, oldest first. -/
def submitted (st : Run) : List ExecuteStatementInput :=
  st.calls.filterMap fun
    | .ExecuteStatement input => some input
    | _ => none

end Run

/-! ## The executor -/

/-- The request built for one statement (lines 92-97). -/
def statementInput (resourceArn secretArn databaseName sqlStatement : String) :
    ExecuteStatementInput :=
  { SecretArn := secretArn, ResourceArn := resourceArn, Sql := sqlStatement,
    Database := databaseName }

/-- The `for` loop of `executeSQLStatements` (lines 91-120): the statements
still to run and the run so far give the run afterwards and the error
returned, if any. -/
def executeLoop (w : World) (resourceArn secretArn databaseName : String) :
    List String → Run → Run × Option GoError
  | [], st => (st, none)
  | sqlStatement :: rest, st =>
    let input := statementInput resourceArn secretArn databaseName sqlStatement
    match w.ExecuteStatement st.calls input with
    | .error err =>
      let st := st.call (.ExecuteStatement input)
      let st :=
        match err.asAPIError with
        | some apiErr =>
          st.logPrintf "Error code: %s, Message: %s, Fault: %s"
            [apiErr.ErrorCode, apiErr.ErrorMessage, faultString apiErr.ErrorFault]
        | none => st.logPrintf "Unexpected error: %v" [err.Error]
      (st, some (Errorf "failed to execute statement: %w" err))
    | .ok records =>
      let st := st.call (.ExecuteStatement input)
      let st := st.print [.executed sqlStatement]
      let st :=
        if records.length > 0 then st.print (.responseRecords :: records.map .record)
        else st.print [.noResponseRecords]
      executeLoop w resourceArn secretArn databaseName rest st

/-- Embedding of `executeSQLStatements`: the run it makes, from no call at all,
and the error it returns, if any. -/
def executeSQLStatements (w : World) (roleArn resourceArn secretArn databaseName : String)
    (sqlStatements : List String) : Run × Option GoError :=
  match w.LoadDefaultConfig [] none with
  | .error err =>
    ({ calls := [.LoadDefaultConfig none] }, some (Errorf "unable to load SDK config: %w" err))
  | .ok _ =>
    match w.LoadDefaultConfig [.LoadDefaultConfig none] (some roleArn) with
    | .error err =>
      ({ calls := [.LoadDefaultConfig none, .LoadDefaultConfig (some roleArn)] },
        some (Errorf "unable to load custom SDK config: %w" err))
    | .ok _ =>
      executeLoop w resourceArn secretArn databaseName sqlStatements
        { calls := [.LoadDefaultConfig none, .LoadDefaultConfig (some roleArn)] }

/-! ## The command line -/

/-- The value a string flag holds after `Parse`: what the command line set it
to, or the default it was declared with. -/
def flagString (set : String → Option String) (name dflt : String) : String :=
  (set name).getD dflt

/-- Embedding of `main`.  `osArgs` is `os.Args`.  `parse name arguments` stands
for `FlagSet.Parse` of the flag set `name` under `flag.ExitOnError`: it either ends
the process with a status, or returns having set some of the flags.  The result
is the run and the exit status of the process. -/
def main (w : World) (parse : String → List String → Except Nat (String → Option String))
    (osArgs : List String) : Run × Nat :=
  match osArgs with
  | [] => ({ stdout := [.expectedSubcommand] }, 1)
  | [_] => ({ stdout := [.expectedSubcommand] }, 1)
  | _ :: subcommand :: arguments =>
    if subcommand = "create-user" then
      match parse "create-user" arguments with
      | .error status => ({}, status)
      | .ok set =>
        let newUserName := flagString set "username" ""
        let newUserPassword := flagString set "password" ""
        let permissionLevel := flagString set "permission" "Admin"
        let roleArn := flagString set "role" ""
        let resourceArn := flagString set "resource" ""
        let secretArn := flagString set "secret" ""
        let databaseName := flagString set "database" ""
        if newUserName = "" ∨ newUserPassword = "" ∨ roleArn = "" ∨ resourceArn = "" ∨
            secretArn = "" ∨ databaseName = "" then
          (Run.logPrintf {}
            "username, password, role, resource, secret ARNs, and database name must be provided"
            [], 1)
        else
          match createUserSQLStatements newUserName newUserPassword databaseName
              permissionLevel with
          | .error fatal => ({ log := [fatal] }, 1)
          | .ok sqlStatements =>
            match executeSQLStatements w roleArn resourceArn secretArn databaseName
                sqlStatements with
            | (st, some err) =>
              (st.logPrintf "Error executing create user statements: %v" [err.Error], 1)
            | (st, none) => (st, 0)
    else if subcommand = "delete-user" then
      match parse "delete-user" arguments with
      | .error status => ({}, status)
      | .ok set =>
        let userName := flagString set "username" ""
        let roleArn := flagString set "role" ""
        let resourceArn := flagString set "resource" ""
        let secretArn := flagString set "secret" ""
        let databaseName := flagString set "database" ""
        if userName = "" ∨ roleArn = "" ∨ resourceArn = "" ∨ secretArn = "" ∨
            databaseName = "" then
          (Run.logPrintf {}
            "username, role, resource, secret ARNs, and database name must be provided" [], 1)
        else
          match executeSQLStatements w roleArn resourceArn secretArn databaseName
              (deleteUserSQLStatements userName databaseName) with
          | (st, some err) =>
            (st.logPrintf "Error executing delete user statements: %v" [err.Error], 1)
          | (st, none) => (st, 0)
    else ({ stdout := [.expectedSubcommand] }, 1)

/-! ## The statement templates, written out

The same statements as plain concatenations, with the privilege list of the two
table-level statements as a parameter. -/

/-- The guarded create with the values in place. -/
def guardedCreateText (u p : String) : String :=
  "DO $$ BEGIN IF NOT EXISTS (SELECT 1 FROM pg_roles WHERE rolname = '" ++ u ++
    "') THEN CREATE USER " ++ u ++ " WITH PASSWORD '" ++ p ++ "'; END IF; END $$;"

/-- A grant of `privileges` on all tables of schema public. -/
def grantOnAllTablesText (privileges u : String) : String :=
  "GRANT " ++ privileges ++ " ON ALL TABLES IN SCHEMA public TO " ++ u ++ ";"

/-- A default-privileges alteration granting `privileges` on future tables. -/
def alterDefaultPrivilegesText (privileges u : String) : String :=
  "ALTER DEFAULT PRIVILEGES IN SCHEMA public GRANT " ++ privileges ++ " ON TABLES TO " ++ u ++ ";"

/-! ## The trace of the loop -/

/-- The calls the loop makes to run all of `sqlStatements`. -/
def statementCalls (resourceArn secretArn databaseName : String) (sqlStatements : List String) :
    List Call :=
  sqlStatements.map fun s => .ExecuteStatement (statementInput resourceArn secretArn databaseName s)

/-- The two calls made before the loop. -/
def setupCalls (roleArn : String) : List Call :=
  [.LoadDefaultConfig none, .LoadDefaultConfig (some roleArn)]

/-- The message logged for a failed statement (lines 101-106). -/
def diagnostic (err : GoError) : String :=
  match err.asAPIError with
  | some apiErr =>
    Sprintf "Error code: %s, Message: %s, Fault: %s"
      [apiErr.ErrorCode, apiErr.ErrorMessage, faultString apiErr.ErrorFault]
  | none => Sprintf "Unexpected error: %v" [err.Error]

/-- A flag is missing or empty: the command line did not set it, or set it to
the empty string. -/
def missingOrEmpty (set : String → Option String) (name : String) : Prop :=
  set name = none ∨ set name = some ""

/-! ## Worlds and command lines used as concrete inputs -/

/-- An SDK that loads its configuration and accepts every statement but the
one whose text is `bad`, which it rejects with a client fault. -/
def rejecting (bad : String) : World where
  LoadDefaultConfig := fun _ _ => .ok ()
  ExecuteStatement := fun _ input =>
    if input.Sql = bad then
      .error (.api ⟨"BadRequestException", "ERROR: permission denied", .FaultClient⟩
        "BadRequestException: ERROR: permission denied")
    else .ok []

/-- An SDK that loads its configuration and rejects every statement with the
same transport error. -/
def refusing : World where
  LoadDefaultConfig := fun _ _ => .ok ()
  ExecuteStatement := fun _ _ => .error (.other "connection reset")

/-- A command line that sets every flag to `x` except `--database`, which it
leaves out. -/
def withoutDatabase : String → List String → Except Nat (String → Option String) :=
  fun _ _ => .ok fun name => if name = "database" then none else some "x"

/-! ## Evaluating the formats -/

set_option maxRecDepth 8000 in
theorem sprintf_guardedCreate (u p : String) :
    Sprintf "DO $$ BEGIN IF NOT EXISTS (SELECT 1 FROM pg_roles WHERE rolname = '%s') THEN CREATE USER %s WITH PASSWORD '%s'; END IF; END $$;" [u, u, p]
      = guardedCreateText u p := by
  apply String.ext
  simp [Sprintf, formatAux, guardedCreateText]

theorem sprintf_grantAll (u d : String) :
    Sprintf "GRANT ALL PRIVILEGES ON DATABASE %s TO %s;" [d, u]
      = "GRANT ALL PRIVILEGES ON DATABASE " ++ d ++ " TO " ++ u ++ ";" := by
  apply String.ext
  simp [Sprintf, formatAux]

theorem sprintf_grantConnect (u d : String) :
    Sprintf "GRANT CONNECT ON DATABASE %s TO %s;" [d, u]
      = "GRANT CONNECT ON DATABASE " ++ d ++ " TO " ++ u ++ ";" := by
  apply String.ext
  simp [Sprintf, formatAux]

theorem sprintf_grantUsage (u : String) :
    Sprintf "GRANT USAGE ON SCHEMA public TO %s;" [u]
      = "GRANT USAGE ON SCHEMA public TO " ++ u ++ ";" := by
  apply String.ext
  simp [Sprintf, formatAux]

theorem sprintf_grantSelect (u : String) :
    Sprintf "GRANT SELECT ON ALL TABLES IN SCHEMA public TO %s;" [u]
      = grantOnAllTablesText "SELECT" u := by
  apply String.ext
  simp [Sprintf, formatAux, grantOnAllTablesText]

theorem sprintf_alterSelect (u : String) :
    Sprintf "ALTER DEFAULT PRIVILEGES IN SCHEMA public GRANT SELECT ON TABLES TO %s;" [u]
      = alterDefaultPrivilegesText "SELECT" u := by
  apply String.ext
  simp [Sprintf, formatAux, alterDefaultPrivilegesText]

theorem sprintf_grantWrite (u : String) :
    Sprintf "GRANT SELECT, INSERT, UPDATE, DELETE ON ALL TABLES IN SCHEMA public TO %s;" [u]
      = grantOnAllTablesText "SELECT, INSERT, UPDATE, DELETE" u := by
  apply String.ext
  simp [Sprintf, formatAux, grantOnAllTablesText]

theorem sprintf_alterWrite (u : String) :
    Sprintf "ALTER DEFAULT PRIVILEGES IN SCHEMA public GRANT SELECT, INSERT, UPDATE, DELETE ON TABLES TO %s;" [u]
      = alterDefaultPrivilegesText "SELECT, INSERT, UPDATE, DELETE" u := by
  apply String.ext
  simp [Sprintf, formatAux, alterDefaultPrivilegesText]

theorem sprintf_invalidPermission (perm : String) :
    Sprintf "invalid permission level: %v" [perm] = "invalid permission level: " ++ perm := by
  apply String.ext
  simp [Sprintf, formatAux]

theorem sprintf_revokeDatabase (u d : String) :
    Sprintf "REVOKE ALL PRIVILEGES ON DATABASE %s FROM %s;" [d, u]
      = "REVOKE ALL PRIVILEGES ON DATABASE " ++ d ++ " FROM " ++ u ++ ";" := by
  apply String.ext
  simp [Sprintf, formatAux]

theorem sprintf_revokeSchema (u : String) :
    Sprintf "REVOKE ALL PRIVILEGES ON SCHEMA public FROM %s;" [u]
      = "REVOKE ALL PRIVILEGES ON SCHEMA public FROM " ++ u ++ ";" := by
  apply String.ext
  simp [Sprintf, formatAux]

theorem sprintf_revokeTables (u : String) :
    Sprintf "REVOKE ALL PRIVILEGES ON ALL TABLES IN SCHEMA public FROM %s;" [u]
      = "REVOKE ALL PRIVILEGES ON ALL TABLES IN SCHEMA public FROM " ++ u ++ ";" := by
  apply String.ext
  simp [Sprintf, formatAux]

theorem sprintf_dropUser (u : String) :
    Sprintf "DROP USER IF EXISTS %s;" [u] = "DROP USER IF EXISTS " ++ u ++ ";" := by
  apply String.ext
  simp [Sprintf, formatAux]

/-- The statement list built for permission level Admin. -/
theorem createUser_admin_eq (u p d : String) :
    createUserSQLStatements u p d "Admin"
      = .ok [guardedCreateText u p, "GRANT ALL PRIVILEGES ON DATABASE " ++ d ++ " TO " ++ u ++ ";"] := by
  simp [createUserSQLStatements, sprintf_guardedCreate, sprintf_grantAll]

/-- The statement list built for permission level Read. -/
theorem createUser_read_eq (u p d : String) :
    createUserSQLStatements u p d "Read"
      = .ok [guardedCreateText u p,
          "GRANT CONNECT ON DATABASE " ++ d ++ " TO " ++ u ++ ";",
          "GRANT USAGE ON SCHEMA public TO " ++ u ++ ";",
          grantOnAllTablesText "SELECT" u,
          alterDefaultPrivilegesText "SELECT" u] := by
  simp [createUserSQLStatements, sprintf_guardedCreate, sprintf_grantConnect, sprintf_grantUsage,
    sprintf_grantSelect, sprintf_alterSelect]

/-- The statement list built for permission level Write. -/
theorem createUser_write_eq (u p d : String) :
    createUserSQLStatements u p d "Write"
      = .ok [guardedCreateText u p,
          "GRANT CONNECT ON DATABASE " ++ d ++ " TO " ++ u ++ ";",
          "GRANT USAGE ON SCHEMA public TO " ++ u ++ ";",
          grantOnAllTablesText "SELECT, INSERT, UPDATE, DELETE" u,
          alterDefaultPrivilegesText "SELECT, INSERT, UPDATE, DELETE" u] := by
  simp [createUserSQLStatements, sprintf_guardedCreate, sprintf_grantConnect, sprintf_grantUsage,
    sprintf_grantWrite, sprintf_alterWrite]

/-- The statement list built by the delete-user builder. -/
theorem deleteUser_eq (u d : String) :
    deleteUserSQLStatements u d
      = ["REVOKE ALL PRIVILEGES ON DATABASE " ++ d ++ " FROM " ++ u ++ ";",
          "REVOKE ALL PRIVILEGES ON SCHEMA public FROM " ++ u ++ ";",
          "REVOKE ALL PRIVILEGES ON ALL TABLES IN SCHEMA public FROM " ++ u ++ ";",
          "DROP USER IF EXISTS " ++ u ++ ";"] := by
  simp [deleteUserSQLStatements, sprintf_revokeDatabase, sprintf_revokeSchema,
    sprintf_revokeTables, sprintf_dropUser]

/-- Any other permission level ends the process with the invalid-level message. -/
theorem createUser_invalid_eq (u p d perm : String)
    (h : ¬ (perm = "Admin" ∨ perm = "Read" ∨ perm = "Write")) :
    createUserSQLStatements u p d perm = .error ("invalid permission level: " ++ perm) := by
  simp only [not_or] at h
  simp [createUserSQLStatements, h.1, h.2.1, h.2.2, sprintf_invalidPermission]

theorem grantSelect_text (u : String) :
    grantOnAllTablesText "SELECT" u
      = "GRANT SELECT ON ALL TABLES IN SCHEMA public TO " ++ u ++ ";" := by
  simp [grantOnAllTablesText, String.ext_iff]

theorem alterSelect_text (u : String) :
    alterDefaultPrivilegesText "SELECT" u
      = "ALTER DEFAULT PRIVILEGES IN SCHEMA public GRANT SELECT ON TABLES TO " ++ u ++ ";" := by
  simp [alterDefaultPrivilegesText, String.ext_iff]

theorem grantWrite_text (u : String) :
    grantOnAllTablesText "SELECT, INSERT, UPDATE, DELETE" u
      = "GRANT SELECT, INSERT, UPDATE, DELETE ON ALL TABLES IN SCHEMA public TO " ++ u ++ ";" := by
  simp [grantOnAllTablesText, String.ext_iff]

theorem alterWrite_text (u : String) :
    alterDefaultPrivilegesText "SELECT, INSERT, UPDATE, DELETE" u
      = "ALTER DEFAULT PRIVILEGES IN SCHEMA public GRANT SELECT, INSERT, UPDATE, DELETE ON TABLES TO "
          ++ u ++ ";" := by
  simp [alterDefaultPrivilegesText, String.ext_iff]

/-! ## The builders: claims -/

/-- C2: `createUserSQLStatements` fails exactly when the permission level is
not one of the strings Admin, Read, Write.  For each of those three it returns
a non-empty statement list; for any other string (the empty string, `admin`
and `READ` among them) it ends with the invalid-permission-level message and
returns no statement list. -/
theorem createUser_fails_iff_invalid_permission (u p d perm : String) :
    (((perm = "Admin" ∨ perm = "Read" ∨ perm = "Write") ∧
        ∃ stmts, stmts ≠ [] ∧ createUserSQLStatements u p d perm = .ok stmts) ∨
      (¬ (perm = "Admin" ∨ perm = "Read" ∨ perm = "Write") ∧
        createUserSQLStatements u p d perm = .error ("invalid permission level: " ++ perm) ∧
        (createUserSQLStatements u p d perm).toOption = none)) ∧
    createUserSQLStatements u p d "" = .error "invalid permission level: " ∧
    createUserSQLStatements u p d "admin" = .error "invalid permission level: admin" ∧
    createUserSQLStatements u p d "READ" = .error "invalid permission level: READ" := by
  refine ⟨?_, ?_, ?_, ?_⟩
  · by_cases h : perm = "Admin" ∨ perm = "Read" ∨ perm = "Write"
    · left
      refine ⟨h, ?_⟩
      rcases h with h | h | h
      · exact ⟨_, by simp, h ▸ createUser_admin_eq u p d⟩
      · exact ⟨_, by simp, h ▸ createUser_read_eq u p d⟩
      · exact ⟨_, by simp, h ▸ createUser_write_eq u p d⟩
    · right
      refine ⟨h, createUser_invalid_eq u p d perm h, ?_⟩
      rw [createUser_invalid_eq u p d perm h]
      rfl
  · exact createUser_invalid_eq u p d "" (by decide)
  · exact createUser_invalid_eq u p d "admin" (by decide)
  · exact createUser_invalid_eq u p d "READ" (by decide)

/-- C3: for every username and database, `deleteUserSQLStatements` returns
exactly four statements in a fixed order: revoke on the database, revoke on
schema public, revoke on all tables of schema public, and the drop last. -/
theorem deleteUser_four_statements_in_order (u d : String) :
    deleteUserSQLStatements u d
      = ["REVOKE ALL PRIVILEGES ON DATABASE " ++ d ++ " FROM " ++ u ++ ";",
          "REVOKE ALL PRIVILEGES ON SCHEMA public FROM " ++ u ++ ";",
          "REVOKE ALL PRIVILEGES ON ALL TABLES IN SCHEMA public FROM " ++ u ++ ";",
          "DROP USER IF EXISTS " ++ u ++ ";"] ∧
    (deleteUserSQLStatements u d).length = 4 ∧
    (deleteUserSQLStatements u d).getLast? = some ("DROP USER IF EXISTS " ++ u ++ ";") := by
  refine ⟨deleteUser_eq u d, ?_, ?_⟩
  · simp [deleteUserSQLStatements]
  · rw [deleteUser_eq]
    rfl

/-- C4: for every username, password and database, permission level Admin
gives exactly two statements: the guarded create of the user (a DO block that
creates it only when `pg_roles` has no row of that name), then the grant of
all privileges on the database. -/
theorem createUser_admin_two_statements (u p d : String) :
    createUserSQLStatements u p d "Admin"
      = .ok ["DO $$ BEGIN IF NOT EXISTS (SELECT 1 FROM pg_roles WHERE rolname = '" ++ u ++
              "') THEN CREATE USER " ++ u ++ " WITH PASSWORD '" ++ p ++ "'; END IF; END $$;",
            "GRANT ALL PRIVILEGES ON DATABASE " ++ d ++ " TO " ++ u ++ ";"] ∧
    ∃ create grant, createUserSQLStatements u p d "Admin" = .ok [create, grant] :=
  ⟨createUser_admin_eq u p d, _, _, createUser_admin_eq u p d⟩

/-- C5: for every username, password and database, permission level Read
gives exactly five statements: the guarded create, connect on the database,
usage on schema public, select on all tables of schema public and, last, the alteration
of default privileges whose privilege list is `SELECT`.  Neither that
list nor the fixed text around it names INSERT, UPDATE or DELETE. -/
theorem createUser_read_five_statements (u p d : String) :
    createUserSQLStatements u p d "Read"
      = .ok ["DO $$ BEGIN IF NOT EXISTS (SELECT 1 FROM pg_roles WHERE rolname = '" ++ u ++
              "') THEN CREATE USER " ++ u ++ " WITH PASSWORD '" ++ p ++ "'; END IF; END $$;",
            "GRANT CONNECT ON DATABASE " ++ d ++ " TO " ++ u ++ ";",
            "GRANT USAGE ON SCHEMA public TO " ++ u ++ ";",
            "GRANT SELECT ON ALL TABLES IN SCHEMA public TO " ++ u ++ ";",
            "ALTER DEFAULT PRIVILEGES IN SCHEMA public GRANT SELECT ON TABLES TO " ++ u ++ ";"] ∧
    (∃ stmts, createUserSQLStatements u p d "Read" = .ok stmts ∧ stmts.length = 5 ∧
      stmts.getLast? = some (alterDefaultPrivilegesText "SELECT" u)) ∧
    (∀ word ∈ ["INSERT", "UPDATE", "DELETE"],
      ¬ word.data <:+: "ALTER DEFAULT PRIVILEGES IN SCHEMA public GRANT SELECT ON TABLES TO ".data ∧
      ¬ word.data <:+: ";".data) := by
  refine ⟨?_, ⟨_, createUser_read_eq u p d, rfl, rfl⟩, ?_⟩
  · rw [createUser_read_eq, grantSelect_text, alterSelect_text]
    rfl
  · intro word hw
    simp only [List.mem_cons, List.mem_singleton, List.not_mem_nil, or_false] at hw
    rcases hw with rfl | rfl | rfl <;> decide

/-- C6: for every username, password and database, permission level Write
gives exactly five statements.  The first three are those of Read for the same
values; the fourth and fifth are Read's grant on all tables and Read's alteration
of default privileges with the privilege list `SELECT` replaced by
`SELECT, INSERT, UPDATE, DELETE`. -/
theorem createUser_write_is_read_with_write_privileges (u p d : String) :
    ∃ create connect usage,
      createUserSQLStatements u p d "Read"
        = .ok [create, connect, usage, grantOnAllTablesText "SELECT" u,
            alterDefaultPrivilegesText "SELECT" u] ∧
      createUserSQLStatements u p d "Write"
        = .ok [create, connect, usage,
            grantOnAllTablesText "SELECT, INSERT, UPDATE, DELETE" u,
            alterDefaultPrivilegesText "SELECT, INSERT, UPDATE, DELETE" u] ∧
      grantOnAllTablesText "SELECT, INSERT, UPDATE, DELETE" u
        = "GRANT SELECT, INSERT, UPDATE, DELETE ON ALL TABLES IN SCHEMA public TO " ++ u ++ ";" ∧
      alterDefaultPrivilegesText "SELECT, INSERT, UPDATE, DELETE" u
        = "ALTER DEFAULT PRIVILEGES IN SCHEMA public GRANT SELECT, INSERT, UPDATE, DELETE ON TABLES TO "
            ++ u ++ ";" := by
  exact ⟨_, _, _, createUser_read_eq u p d, createUser_write_eq u p d, grantWrite_text u,
    alterWrite_text u⟩

/-- C10: the builders do no escaping.  For arbitrary strings as username,
password and database, every statement of every list is its fixed text with
the values put in unchanged, so each value occurs in it character for
character; a password with a single quote, such as `it's`, reaches the
guarded create with the quote as it is. -/
theorem builders_interpolate_verbatim (u p d : String) :
    createUserSQLStatements u p d "Admin"
      = .ok ["DO $$ BEGIN IF NOT EXISTS (SELECT 1 FROM pg_roles WHERE rolname = '" ++ u ++
              "') THEN CREATE USER " ++ u ++ " WITH PASSWORD '" ++ p ++ "'; END IF; END $$;",
            "GRANT ALL PRIVILEGES ON DATABASE " ++ d ++ " TO " ++ u ++ ";"] ∧
    createUserSQLStatements u p d "Read"
      = .ok ["DO $$ BEGIN IF NOT EXISTS (SELECT 1 FROM pg_roles WHERE rolname = '" ++ u ++
              "') THEN CREATE USER " ++ u ++ " WITH PASSWORD '" ++ p ++ "'; END IF; END $$;",
            "GRANT CONNECT ON DATABASE " ++ d ++ " TO " ++ u ++ ";",
            "GRANT USAGE ON SCHEMA public TO " ++ u ++ ";",
            "GRANT SELECT ON ALL TABLES IN SCHEMA public TO " ++ u ++ ";",
            "ALTER DEFAULT PRIVILEGES IN SCHEMA public GRANT SELECT ON TABLES TO " ++ u ++ ";"] ∧
    createUserSQLStatements u p d "Write"
      = .ok ["DO $$ BEGIN IF NOT EXISTS (SELECT 1 FROM pg_roles WHERE rolname = '" ++ u ++
              "') THEN CREATE USER " ++ u ++ " WITH PASSWORD '" ++ p ++ "'; END IF; END $$;",
            "GRANT CONNECT ON DATABASE " ++ d ++ " TO " ++ u ++ ";",
            "GRANT USAGE ON SCHEMA public TO " ++ u ++ ";",
            "GRANT SELECT, INSERT, UPDATE, DELETE ON ALL TABLES IN SCHEMA public TO " ++ u ++ ";",
            "ALTER DEFAULT PRIVILEGES IN SCHEMA public GRANT SELECT, INSERT, UPDATE, DELETE ON TABLES TO "
              ++ u ++ ";"] ∧
    deleteUserSQLStatements u d
      = ["REVOKE ALL PRIVILEGES ON DATABASE " ++ d ++ " FROM " ++ u ++ ";",
          "REVOKE ALL PRIVILEGES ON SCHEMA public FROM " ++ u ++ ";",
          "REVOKE ALL PRIVILEGES ON ALL TABLES IN SCHEMA public FROM " ++ u ++ ";",
          "DROP USER IF EXISTS " ++ u ++ ";"] ∧
    p.data <:+: (guardedCreateText u p).data ∧
    createUserSQLStatements "bob" "it's" "db" "Admin"
      = .ok ["DO $$ BEGIN IF NOT EXISTS (SELECT 1 FROM pg_roles WHERE rolname = 'bob') THEN CREATE USER bob WITH PASSWORD 'it's'; END IF; END $$;",
            "GRANT ALL PRIVILEGES ON DATABASE db TO bob;"] := by
  refine ⟨createUser_admin_eq u p d, ?_, ?_, deleteUser_eq u d, ?_, ?_⟩
  · rw [createUser_read_eq, grantSelect_text, alterSelect_text]
    rfl
  · rw [createUser_write_eq, grantWrite_text, alterWrite_text]
    rfl
  · refine ⟨("DO $$ BEGIN IF NOT EXISTS (SELECT 1 FROM pg_roles WHERE rolname = '" ++ u ++
        "') THEN CREATE USER " ++ u ++ " WITH PASSWORD '").data, "'; END IF; END $$;".data, ?_⟩
    simp [guardedCreateText]
  · rw [createUser_admin_eq]
    rfl

/-! ## The executor: the loop -/

theorem submitted_statementCalls (res sec db : String) (stmts : List String) :
    Run.submitted { calls := statementCalls res sec db stmts }
      = stmts.map (statementInput res sec db) := by
  induction stmts with
  | nil => rfl
  | cons s rest ih =>
    simp only [Run.submitted, statementCalls, List.map_cons, List.filterMap_cons] at ih ⊢
    rw [ih]

theorem filterMap_executed_records (records : List String) :
    (records.map StdoutLine.record).filterMap (fun
      | .executed sqlStatement => some sqlStatement
      | _ => none) = [] := by
  induction records with
  | nil => rfl
  | cons r rest ih => simp [List.filterMap_cons]

/-- One accepted statement: the loop records the call, prints the success
message and the records, and goes on with the rest. -/
theorem executeLoop_cons_ok (w : World) (res sec db s : String) (rest : List String) (st : Run)
    (records : List String)
    (h : w.ExecuteStatement st.calls (statementInput res sec db s) = .ok records) :
    ∃ st1 : Run,
      executeLoop w res sec db (s :: rest) st = executeLoop w res sec db rest st1 ∧
      st1.calls = st.calls ++ [.ExecuteStatement (statementInput res sec db s)] ∧
      st1.executedStatements = st.executedStatements ++ [s] ∧
      st1.log = st.log := by
  by_cases hr : records.length > 0
  · refine ⟨((st.call (.ExecuteStatement (statementInput res sec db s))).print
        [.executed s]).print (.responseRecords :: records.map .record),
      by simp only [executeLoop, h, if_pos hr], rfl, ?_, rfl⟩
    simp [Run.executedStatements, Run.print, Run.call, filterMap_executed_records]
  · refine ⟨((st.call (.ExecuteStatement (statementInput res sec db s))).print
        [.executed s]).print [.noResponseRecords],
      by simp only [executeLoop, h, if_neg hr], rfl, ?_, rfl⟩
    simp [Run.executedStatements, Run.print, Run.call]

/-- One rejected statement: the loop records the call, logs the diagnostic and
returns the remote error wrapped, leaving the rest alone. -/
theorem executeLoop_cons_error (w : World) (res sec db s : String) (rest : List String) (st : Run)
    (err : GoError)
    (h : w.ExecuteStatement st.calls (statementInput res sec db s) = .error err) :
    executeLoop w res sec db (s :: rest) st
      = ({ calls := st.calls ++ [.ExecuteStatement (statementInput res sec db s)],
           stdout := st.stdout,
           log := st.log ++ [diagnostic err] },
         some (Errorf "failed to execute statement: %w" err)) := by
  simp only [executeLoop, h, diagnostic]
  cases err.asAPIError <;> rfl

/-- The loop when every statement is accepted where it is submitted. -/
theorem executeLoop_all_ok (w : World) (res sec db : String) :
    ∀ (stmts : List String) (st : Run),
      (∀ i s, stmts[i]? = some s →
        ∃ records, w.ExecuteStatement (st.calls ++ statementCalls res sec db (stmts.take i))
          (statementInput res sec db s) = .ok records) →
      (executeLoop w res sec db stmts st).2 = none ∧
      (executeLoop w res sec db stmts st).1.calls = st.calls ++ statementCalls res sec db stmts ∧
      (executeLoop w res sec db stmts st).1.executedStatements = st.executedStatements ++ stmts ∧
      (executeLoop w res sec db stmts st).1.log = st.log := by
  intro stmts
  induction stmts with
  | nil => intro st _; simp [executeLoop, statementCalls]
  | cons s rest ih =>
    intro st hacc
    obtain ⟨records, hrec⟩ := hacc 0 s (by simp)
    simp only [List.take_zero, statementCalls, List.map_nil, List.append_nil] at hrec
    obtain ⟨st1, hstep, hcalls, hexec, hlog⟩ := executeLoop_cons_ok w res sec db s rest st records hrec
    have hrest : ∀ i t, rest[i]? = some t →
        ∃ records, w.ExecuteStatement (st1.calls ++ statementCalls res sec db (rest.take i))
          (statementInput res sec db t) = .ok records := by
      intro i t hit
      have := hacc (i + 1) t (by simpa using hit)
      simpa [hcalls, statementCalls] using this
    obtain ⟨h1, h2, h3, h4⟩ := ih st1 hrest
    rw [hstep]
    refine ⟨h1, ?_, ?_, ?_⟩
    · rw [h2, hcalls]; simp [statementCalls]
    · rw [h3, hexec]; simp
    · rw [h4, hlog]

/-- The loop when the statements before position `j` are accepted and the one
at position `j` is rejected with `err`. -/
theorem executeLoop_fail (w : World) (res sec db : String) :
    ∀ (stmts : List String) (st : Run) (j : Nat) (sj : String) (err : GoError),
      stmts[j]? = some sj →
      (∀ i s, i < j → stmts[i]? = some s →
        ∃ records, w.ExecuteStatement (st.calls ++ statementCalls res sec db (stmts.take i))
          (statementInput res sec db s) = .ok records) →
      w.ExecuteStatement (st.calls ++ statementCalls res sec db (stmts.take j))
        (statementInput res sec db sj) = .error err →
      (executeLoop w res sec db stmts st).2 = some (Errorf "failed to execute statement: %w" err) ∧
      (executeLoop w res sec db stmts st).1.calls
        = st.calls ++ statementCalls res sec db (stmts.take (j + 1)) ∧
      (executeLoop w res sec db stmts st).1.executedStatements
        = st.executedStatements ++ stmts.take j ∧
      (executeLoop w res sec db stmts st).1.log = st.log ++ [diagnostic err] := by
  intro stmts
  induction stmts with
  | nil => intro st j sj err hj; simp at hj
  | cons s rest ih =>
    intro st j sj err hj hacc hrej
    cases j with
    | zero =>
      simp only [List.getElem?_cons_zero, Option.some.injEq] at hj
      subst hj
      simp only [List.take_zero, statementCalls, List.map_nil, List.append_nil] at hrej
      rw [executeLoop_cons_error w res sec db s rest st err hrej]
      simp [statementCalls, Run.executedStatements]
    | succ j =>
      obtain ⟨records, hrec⟩ := hacc 0 s (Nat.succ_pos j) (by simp)
      simp only [List.take_zero, statementCalls, List.map_nil, List.append_nil] at hrec
      obtain ⟨st1, hstep, hcalls, hexec, hlog⟩ :=
        executeLoop_cons_ok w res sec db s rest st records hrec
      have hrest : ∀ i t, i < j → rest[i]? = some t →
          ∃ records, w.ExecuteStatement (st1.calls ++ statementCalls res sec db (rest.take i))
            (statementInput res sec db t) = .ok records := by
        intro i t hi hit
        have := hacc (i + 1) t (Nat.succ_lt_succ hi) (by simpa using hit)
        simpa [hcalls, statementCalls] using this
      have hrej1 : w.ExecuteStatement (st1.calls ++ statementCalls res sec db (rest.take j))
          (statementInput res sec db sj) = .error err := by
        simpa [hcalls, statementCalls] using hrej
      obtain ⟨h1, h2, h3, h4⟩ := ih st1 j sj err (by simpa using hj) hrest hrej1
      rw [hstep]
      refine ⟨h1, ?_, ?_, ?_⟩
      · rw [h2, hcalls]; simp [statementCalls]
      · rw [h3, hexec]; simp
      · rw [h4, hlog]

/-! ## The executor: claims -/

theorem flagString_eq_empty_iff (set : String → Option String) (name : String) :
    flagString set name "" = "" ↔ missingOrEmpty set name := by
  unfold flagString missingOrEmpty
  cases set name <;> simp

theorem executeSQLStatements_eq_loop (w : World) (roleArn res sec db : String)
    (stmts : List String)
    (hcfg : w.LoadDefaultConfig [] none = .ok ())
    (hrole : w.LoadDefaultConfig [.LoadDefaultConfig none] (some roleArn) = .ok ()) :
    executeSQLStatements w roleArn res sec db stmts
      = executeLoop w res sec db stmts { calls := setupCalls roleArn } := by
  simp only [executeSQLStatements, hcfg, hrole, setupCalls]

theorem submitted_setup_append (roleArn res sec db : String) (stmts : List String) (st : Run)
    (h : st.calls = setupCalls roleArn ++ statementCalls res sec db stmts) :
    st.submitted = stmts.map (statementInput res sec db) := by
  have := submitted_statementCalls res sec db stmts
  simp only [Run.submitted] at this ⊢
  rw [h, List.filterMap_append, this]
  simp [setupCalls]

/-- What a run that fails at position `j` looks like, for the two claims about
failure. -/
theorem executeSQLStatements_fail (w : World) (roleArn res sec db : String)
    (stmts : List String) (j : Nat) (sj : String) (err : GoError)
    (hcfg : w.LoadDefaultConfig [] none = .ok ())
    (hrole : w.LoadDefaultConfig [.LoadDefaultConfig none] (some roleArn) = .ok ())
    (hsj : stmts[j]? = some sj)
    (hacc : ∀ i s, i < j → stmts[i]? = some s →
      ∃ records, w.ExecuteStatement (setupCalls roleArn ++ statementCalls res sec db (stmts.take i))
        (statementInput res sec db s) = .ok records)
    (hrej : w.ExecuteStatement (setupCalls roleArn ++ statementCalls res sec db (stmts.take j))
      (statementInput res sec db sj) = .error err) :
    (executeSQLStatements w roleArn res sec db stmts).2
        = some (Errorf "failed to execute statement: %w" err) ∧
    (executeSQLStatements w roleArn res sec db stmts).1.calls
        = setupCalls roleArn ++ statementCalls res sec db (stmts.take (j + 1)) ∧
    (executeSQLStatements w roleArn res sec db stmts).1.executedStatements = stmts.take j ∧
    (executeSQLStatements w roleArn res sec db stmts).1.log = [diagnostic err] := by
  rw [executeSQLStatements_eq_loop w roleArn res sec db stmts hcfg hrole]
  have := executeLoop_fail w res sec db stmts { calls := setupCalls roleArn } j sj err hsj hacc hrej
  simpa [Run.executedStatements] using this

theorem errorf_failed_text (err : GoError) :
    (Errorf "failed to execute statement: %w" err).Error
      = "failed to execute statement: " ++ err.Error := by
  simp [Errorf, GoError.Error, formatAux, String.ext_iff]

/-- C1: abort on first failure.  Let both configuration loads succeed, let
`sk` be the `k`-th statement of the list (`1 ≤ k`, so `k ≤ n`), let the remote
API accept each of the statements before it when it is submitted, and reject
`sk`.  Then the statements submitted are exactly the first `k`, in order and
once each, the success messages are exactly those of the first `k - 1`
statements, in order, and an error is returned. -/
theorem executeSQLStatements_abort_on_first_failure (w : World)
    (roleArn res sec db : String) (stmts : List String) (k : Nat) (sk : String) (err : GoError)
    (hcfg : w.LoadDefaultConfig [] none = .ok ())
    (hrole : w.LoadDefaultConfig [.LoadDefaultConfig none] (some roleArn) = .ok ())
    (hk : 1 ≤ k)
    (hsk : stmts[k - 1]? = some sk)
    (hacc : ∀ i s, i + 1 < k → stmts[i]? = some s →
      ∃ records, w.ExecuteStatement (setupCalls roleArn ++ statementCalls res sec db (stmts.take i))
        (statementInput res sec db s) = .ok records)
    (hrej : w.ExecuteStatement
      (setupCalls roleArn ++ statementCalls res sec db (stmts.take (k - 1)))
      (statementInput res sec db sk) = .error err) :
    k ≤ stmts.length ∧
    (executeSQLStatements w roleArn res sec db stmts).1.submitted
        = (stmts.take k).map (statementInput res sec db) ∧
    (executeSQLStatements w roleArn res sec db stmts).1.submitted.map (·.Sql) = stmts.take k ∧
    (executeSQLStatements w roleArn res sec db stmts).1.submitted.length = k ∧
    (executeSQLStatements w roleArn res sec db stmts).1.executedStatements = stmts.take (k - 1) ∧
    (executeSQLStatements w roleArn res sec db stmts).1.executedStatements.length = k - 1 ∧
    (executeSQLStatements w roleArn res sec db stmts).2.isSome = true := by
  have hlen : k - 1 < stmts.length := by
    rcases Nat.lt_or_ge (k - 1) stmts.length with h | h
    · exact h
    · rw [List.getElem?_eq_none h] at hsk
      cases hsk
  have hkn : k ≤ stmts.length := by omega
  obtain ⟨herr, hcalls, hexec, _⟩ :=
    executeSQLStatements_fail w roleArn res sec db stmts (k - 1) sk err hcfg hrole hsk
      (fun i s hi => hacc i s (by omega)) hrej
  have hk1 : k - 1 + 1 = k := by omega
  rw [hk1] at hcalls
  have hsub := submitted_setup_append roleArn res sec db (stmts.take k) _ hcalls
  refine ⟨hkn, hsub, ?_, ?_, hexec, ?_, ?_⟩
  · rw [hsub, List.map_map]
    exact (List.map_congr_left fun _ _ => rfl).trans (List.map_id _)
  · rw [hsub, List.length_map, List.length_take]
    omega
  · rw [hexec, List.length_take]
    omega
  · rw [herr]
    rfl

/-- Witness of C1: of three statements the third is rejected; the three are
submitted and two success messages are printed. -/
theorem executeSQLStatements_abort_on_first_failure_witness :
    (executeSQLStatements (rejecting "s3") "R" "Res" "S" "db" ["s1", "s2", "s3", "s4"]).1.submitted.map
        (·.Sql) = ["s1", "s2", "s3"] ∧
    (executeSQLStatements (rejecting "s3") "R" "Res" "S" "db"
        ["s1", "s2", "s3", "s4"]).1.executedStatements = ["s1", "s2"] ∧
    (executeSQLStatements (rejecting "s3") "R" "Res" "S" "db" ["s1", "s2", "s3", "s4"]).2.isSome
        = true := by
  have h := executeSQLStatements_abort_on_first_failure (rejecting "s3") "R" "Res" "S" "db"
    ["s1", "s2", "s3", "s4"] 3 "s3"
    (.api ⟨"BadRequestException", "ERROR: permission denied", .FaultClient⟩
      "BadRequestException: ERROR: permission denied")
    rfl rfl (by decide) rfl
    (by
      intro i s hi hs
      have hi2 : i < 2 := by omega
      interval_cases i
      · simp only [List.getElem?_cons_zero, Option.some.injEq] at hs
        subst hs
        exact ⟨[], rfl⟩
      · simp only [List.getElem?_cons_succ, List.getElem?_cons_zero, Option.some.injEq] at hs
        subst hs
        exact ⟨[], rfl⟩)
    rfl
  exact ⟨h.2.2.1, h.2.2.2.2.1, h.2.2.2.2.2.2⟩

/-- C8: all-success execution.  Let both configuration loads succeed and let
the remote API accept each statement when it is submitted.  Then no error is
returned, and the remote API receives exactly `n` statement calls: the `i`-th
carries the `i`-th statement, in input order, none left out and none twice,
and every call carries the secret, resource and database given to
`executeSQLStatements`. -/
theorem executeSQLStatements_all_accepted (w : World) (roleArn res sec db : String)
    (stmts : List String)
    (hcfg : w.LoadDefaultConfig [] none = .ok ())
    (hrole : w.LoadDefaultConfig [.LoadDefaultConfig none] (some roleArn) = .ok ())
    (hacc : ∀ i s, stmts[i]? = some s →
      ∃ records, w.ExecuteStatement (setupCalls roleArn ++ statementCalls res sec db (stmts.take i))
        (statementInput res sec db s) = .ok records) :
    (executeSQLStatements w roleArn res sec db stmts).2 = none ∧
    (executeSQLStatements w roleArn res sec db stmts).1.submitted.length = stmts.length ∧
    (executeSQLStatements w roleArn res sec db stmts).1.submitted.map (·.Sql) = stmts ∧
    (∀ input ∈ (executeSQLStatements w roleArn res sec db stmts).1.submitted,
      input.SecretArn = sec ∧ input.ResourceArn = res ∧ input.Database = db) ∧
    (executeSQLStatements w roleArn res sec db stmts).1.executedStatements = stmts := by
  rw [executeSQLStatements_eq_loop w roleArn res sec db stmts hcfg hrole]
  obtain ⟨herr, hcalls, hexec, _⟩ :=
    executeLoop_all_ok w res sec db stmts { calls := setupCalls roleArn } hacc
  have hsub := submitted_setup_append roleArn res sec db stmts _ hcalls
  refine ⟨herr, ?_, ?_, ?_, ?_⟩
  · rw [hsub, List.length_map]
  · rw [hsub, List.map_map]
    exact (List.map_congr_left fun _ _ => rfl).trans (List.map_id _)
  · intro input hin
    rw [hsub, List.mem_map] at hin
    obtain ⟨s, _, rfl⟩ := hin
    exact ⟨rfl, rfl, rfl⟩
  · simpa [Run.executedStatements] using hexec

/-- Witness of C8: three statements, none of them the rejected one. -/
theorem executeSQLStatements_all_accepted_witness :
    (executeSQLStatements (rejecting "s9") "R" "Res" "S" "db" ["s1", "s2", "s3"]).2 = none ∧
    (executeSQLStatements (rejecting "s9") "R" "Res" "S" "db" ["s1", "s2", "s3"]).1.submitted.map
        (·.Sql) = ["s1", "s2", "s3"] := by
  have h := executeSQLStatements_all_accepted (rejecting "s9") "R" "Res" "S" "db"
    ["s1", "s2", "s3"] rfl rfl
    (by
      intro i s hs
      have hi : i < 3 := by
        rcases Nat.lt_or_ge i 3 with h | h
        · exact h
        · rw [List.getElem?_eq_none (by simpa using h)] at hs
          cases hs
      interval_cases i <;>
        simp only [List.getElem?_cons_succ, List.getElem?_cons_zero, Option.some.injEq] at hs <;>
        subst hs <;> exact ⟨[], rfl⟩)
  exact ⟨h.1, h.2.2.1⟩

/-- C9 as stated fails: the returned error does not identify the statement.
Against an SDK that rejects every statement with the same error, a run of
`DROP USER IF EXISTS alice;` and a run of `DROP USER IF EXISTS bob;` return
the same error, whose text has no SQL in it; so nothing computed from the
returned error gives the failing statement. -/
theorem returned_error_does_not_identify_statement :
    (executeSQLStatements refusing "R" "Res" "S" "db" ["DROP USER IF EXISTS alice;"]).2
      = some (.wrap "failed to execute statement: connection reset" (.other "connection reset")) ∧
    (executeSQLStatements refusing "R" "Res" "S" "db" ["DROP USER IF EXISTS bob;"]).2
      = some (.wrap "failed to execute statement: connection reset" (.other "connection reset")) ∧
    ¬ "DROP USER IF EXISTS alice;".data <:+:
        "failed to execute statement: connection reset".data ∧
    ¬ ∃ identify : GoError → String, ∀ (w : World) (s : String) (e : GoError),
        (executeSQLStatements w "R" "Res" "S" "db" [s]).2 = some e → identify e = s := by
  have ha : (executeSQLStatements refusing "R" "Res" "S" "db" ["DROP USER IF EXISTS alice;"]).2
      = some (.wrap "failed to execute statement: connection reset" (.other "connection reset")) :=
    by decide
  have hb : (executeSQLStatements refusing "R" "Res" "S" "db" ["DROP USER IF EXISTS bob;"]).2
      = some (.wrap "failed to execute statement: connection reset" (.other "connection reset")) :=
    by decide
  refine ⟨ha, hb, by decide, ?_⟩
  rintro ⟨identify, h⟩
  have h1 := h refusing _ _ ha
  have h2 := h refusing _ _ hb
  rw [h1] at h2
  exact absurd h2 (by decide)

/-- C9, amended: when the remote API rejects the `k`-th statement, at any
position of any list, the error returned is the remote error wrapped under the
fixed text `failed to execute statement: `.  The remote error is what
unwrapping it gives, its message is that text followed by the remote error's
message, and it is made of the remote error alone. -/
theorem executeSQLStatements_error_wraps_remote (w : World)
    (roleArn res sec db : String) (stmts : List String) (k : Nat) (sk : String) (err : GoError)
    (hcfg : w.LoadDefaultConfig [] none = .ok ())
    (hrole : w.LoadDefaultConfig [.LoadDefaultConfig none] (some roleArn) = .ok ())
    (hk : 1 ≤ k)
    (hsk : stmts[k - 1]? = some sk)
    (hacc : ∀ i s, i + 1 < k → stmts[i]? = some s →
      ∃ records, w.ExecuteStatement (setupCalls roleArn ++ statementCalls res sec db (stmts.take i))
        (statementInput res sec db s) = .ok records)
    (hrej : w.ExecuteStatement
      (setupCalls roleArn ++ statementCalls res sec db (stmts.take (k - 1)))
      (statementInput res sec db sk) = .error err) :
    ∃ e, (executeSQLStatements w roleArn res sec db stmts).2 = some e ∧
      e.Unwrap = some err ∧
      e.Error = "failed to execute statement: " ++ err.Error ∧
      e = .wrap ("failed to execute statement: " ++ err.Error) err := by
  obtain ⟨herr, _⟩ :=
    executeSQLStatements_fail w roleArn res sec db stmts (k - 1) sk err hcfg hrole hsk
      (fun i s hi => hacc i s (by omega)) hrej
  refine ⟨_, herr, rfl, errorf_failed_text err, ?_⟩
  have := errorf_failed_text err
  simp only [Errorf, GoError.Error] at this ⊢
  rw [this]

/-- Witness of C9 as amended: the only statement is rejected. -/
theorem executeSQLStatements_error_wraps_remote_witness :
    ∃ e, (executeSQLStatements refusing "R" "Res" "S" "db" ["s1"]).2 = some e ∧
      e.Unwrap = some (.other "connection reset") ∧
      e.Error = "failed to execute statement: " ++ (GoError.other "connection reset").Error ∧
      e = .wrap ("failed to execute statement: " ++ (GoError.other "connection reset").Error)
        (.other "connection reset") :=
  executeSQLStatements_error_wraps_remote refusing "R" "Res" "S" "db" ["s1"] 1 "s1"
    (.other "connection reset") rfl rfl (by decide) rfl
    (fun i _ hi => absurd hi (by omega)) rfl

/-! ## The command line: claims -/

/-- C7: validation precedes every remote interaction.  Take a run of
`create-user` whose flags, once parsed, leave any of username, password, role,
resource, secret, database missing or empty, or give a permission level other
than Admin, Read, Write; or a run of `delete-user` that leaves any of
username, role, resource, secret, database missing or empty.  The process ends
with a non-zero status and the SDK has been called zero times. -/
theorem validation_precedes_remote_calls (w : World)
    (parse : String → List String → Except Nat (String → Option String))
    (prog subcommand : String) (arguments : List String) (set : String → Option String)
    (hparse : parse subcommand arguments = .ok set)
    (hbad :
      (subcommand = "create-user" ∧
        (missingOrEmpty set "username" ∨ missingOrEmpty set "password" ∨
          missingOrEmpty set "role" ∨ missingOrEmpty set "resource" ∨
          missingOrEmpty set "secret" ∨ missingOrEmpty set "database" ∨
          ¬ (flagString set "permission" "Admin" = "Admin" ∨
             flagString set "permission" "Admin" = "Read" ∨
             flagString set "permission" "Admin" = "Write"))) ∨
      (subcommand = "delete-user" ∧
        (missingOrEmpty set "username" ∨ missingOrEmpty set "role" ∨
          missingOrEmpty set "resource" ∨ missingOrEmpty set "secret" ∨
          missingOrEmpty set "database"))) :
    (main w parse (prog :: subcommand :: arguments)).2 ≠ 0 ∧
    (main w parse (prog :: subcommand :: arguments)).1.calls = [] := by
  rcases hbad with ⟨rfl, hbad⟩ | ⟨rfl, hbad⟩
  · simp only [main, if_true, hparse]
    by_cases hempty : flagString set "username" "" = "" ∨ flagString set "password" "" = "" ∨
        flagString set "role" "" = "" ∨ flagString set "resource" "" = "" ∨
        flagString set "secret" "" = "" ∨ flagString set "database" "" = ""
    · rw [if_pos hempty]
      exact ⟨Nat.succ_ne_zero 0, rfl⟩
    · rw [if_neg hempty]
      have hperm : ¬ (flagString set "permission" "Admin" = "Admin" ∨
          flagString set "permission" "Admin" = "Read" ∨
          flagString set "permission" "Admin" = "Write") := by
        simp only [flagString_eq_empty_iff] at hempty
        tauto
      rw [createUser_invalid_eq _ _ _ _ hperm]
      exact ⟨Nat.succ_ne_zero 0, rfl⟩
  · have hne : ¬ ("delete-user" = "create-user") := by decide
    simp only [main, if_neg hne, if_true, hparse]
    have hempty : flagString set "username" "" = "" ∨ flagString set "role" "" = "" ∨
        flagString set "resource" "" = "" ∨ flagString set "secret" "" = "" ∨
        flagString set "database" "" = "" := by
      simp only [flagString_eq_empty_iff]
      exact hbad
    rw [if_pos hempty]
    exact ⟨Nat.succ_ne_zero 0, rfl⟩

/-- Witness of C7: `delete-user` with every flag but `--database`. -/
theorem validation_precedes_remote_calls_witness :
    missingOrEmpty (fun name => if name = "database" then none else some "x") "database" ∧
    (main refusing withoutDatabase ["aws-psql", "delete-user", "--username=x", "--role=x",
        "--resource=x", "--secret=x"]).2 ≠ 0 ∧
    (main refusing withoutDatabase ["aws-psql", "delete-user", "--username=x", "--role=x",
        "--resource=x", "--secret=x"]).1.calls = [] :=
  ⟨Or.inl rfl,
    validation_precedes_remote_calls refusing withoutDatabase "aws-psql" "delete-user"
      ["--username=x", "--role=x", "--resource=x", "--secret=x"]
      (fun name => if name = "database" then none else some "x") rfl
      (Or.inr ⟨rfl, Or.inr (Or.inr (Or.inr (Or.inr (Or.inl rfl))))⟩)⟩

end AwsPsql
